import Mathlib

/-!
# Verification of the partitions-cli metadata decoder and dispatcher

Shallow embedding of `src/types.rs` and `src/main.rs`:

* the taxonomy enumerations (`Instrument`, `Voice`, `Clef`, `Tone`, `Format`,
  `Category`) with the string conversions the Rust `strum` derives generate
  (`serialize_all = "snake_case"` on every enum except `Voice`, which keeps
  its verbatim variant names `I`, `II`, `III`, `Solo`);
* `MusicSheet.tryFrom`, the path-to-metadata decoder
  (`impl TryFrom<Utf8PathBuf> for MusicSheet`), operating on the path's
  components given as a `List String`;
* the filter pipeline of `get_ly_files` and the description string built by
  `compile_lilypond`.

Paths are modelled as their component lists (`camino::Utf8PathBuf::components`),
and fallible operations return `Except String`.
-/

namespace Partitions

/-- The `Instrument` enum of `types.rs`. -/
inductive Instrument where
  | Baryton
  | Basse
  | Bugle
  | CaisseClaire
  | Clarinette
  | Contrebasse
  | Cor
  | Euphonium
  | Flute
  | GrosseCaisse
  | Piccolo
  | SaxophoneAlto
  | SaxophoneBaryton
  | SaxophoneSoprano
  | SaxophoneTenor
  | Trombone
  | Trompette
  | Tuba
  deriving DecidableEq

/-- `strum` `Display` with `serialize_all = "snake_case"`. -/
def Instrument.toStr : Instrument → String
  | .Baryton => "baryton"
  | .Basse => "basse"
  | .Bugle => "bugle"
  | .CaisseClaire => "caisse_claire"
  | .Clarinette => "clarinette"
  | .Contrebasse => "contrebasse"
  | .Cor => "cor"
  | .Euphonium => "euphonium"
  | .Flute => "flute"
  | .GrosseCaisse => "grosse_caisse"
  | .Piccolo => "piccolo"
  | .SaxophoneAlto => "saxophone_alto"
  | .SaxophoneBaryton => "saxophone_baryton"
  | .SaxophoneSoprano => "saxophone_soprano"
  | .SaxophoneTenor => "saxophone_tenor"
  | .Trombone => "trombone"
  | .Trompette => "trompette"
  | .Tuba => "tuba"

/-- `strum` `EnumString` (`from_str`) with `serialize_all = "snake_case"`. -/
def Instrument.fromStr : String → Option Instrument
  | "baryton" => some .Baryton
  | "basse" => some .Basse
  | "bugle" => some .Bugle
  | "caisse_claire" => some .CaisseClaire
  | "clarinette" => some .Clarinette
  | "contrebasse" => some .Contrebasse
  | "cor" => some .Cor
  | "euphonium" => some .Euphonium
  | "flute" => some .Flute
  | "grosse_caisse" => some .GrosseCaisse
  | "piccolo" => some .Piccolo
  | "saxophone_alto" => some .SaxophoneAlto
  | "saxophone_baryton" => some .SaxophoneBaryton
  | "saxophone_soprano" => some .SaxophoneSoprano
  | "saxophone_tenor" => some .SaxophoneTenor
  | "trombone" => some .Trombone
  | "trompette" => some .Trompette
  | "tuba" => some .Tuba
  | _ => none

/-- The `Voice` enum of `types.rs` (no `serialize_all`: verbatim names). -/
inductive Voice where
  | I
  | II
  | III
  | Solo
  deriving DecidableEq

def Voice.toStr : Voice → String
  | .I => "I"
  | .II => "II"
  | .III => "III"
  | .Solo => "Solo"

def Voice.fromStr : String → Option Voice
  | "I" => some .I
  | "II" => some .II
  | "III" => some .III
  | "Solo" => some .Solo
  | _ => none

/-- The `Clef` enum of `types.rs`. -/
inductive Clef where
  | ClefFa
  | ClefSol
  | ClefDrums
  deriving DecidableEq

/-- `strum` `Display` with `serialize_all = "snake_case"`:
`ClefFa` renders as `"clef_fa"`, not `"ClefFa"`. -/
def Clef.toStr : Clef → String
  | .ClefFa => "clef_fa"
  | .ClefSol => "clef_sol"
  | .ClefDrums => "clef_drums"

def Clef.fromStr : String → Option Clef
  | "clef_fa" => some .ClefFa
  | "clef_sol" => some .ClefSol
  | "clef_drums" => some .ClefDrums
  | _ => none

/-- The `Tone` enum of `types.rs`. -/
inductive Tone where
  | Ut
  | Mib
  | Fa
  | Sib
  deriving DecidableEq

def Tone.toStr : Tone → String
  | .Ut => "ut"
  | .Mib => "mib"
  | .Fa => "fa"
  | .Sib => "sib"

def Tone.fromStr : String → Option Tone
  | "ut" => some .Ut
  | "mib" => some .Mib
  | "fa" => some .Fa
  | "sib" => some .Sib
  | _ => none

/-- The `Format` enum of `types.rs`. -/
inductive Format where
  | A4
  | Carnet
  deriving DecidableEq

def Format.toStr : Format → String
  | .A4 => "a4"
  | .Carnet => "carnet"

def Format.fromStr : String → Option Format
  | "a4" => some .A4
  | "carnet" => some .Carnet
  | _ => none

/-- The `Category` enum of `types.rs`. -/
inductive Category where
  | Concerts
  | Animations
  | Marches
  deriving DecidableEq

def Category.toStr : Category → String
  | .Concerts => "concerts"
  | .Animations => "animations"
  | .Marches => "marches"

def Category.fromStr : String → Option Category
  | "concerts" => some .Concerts
  | "animations" => some .Animations
  | "marches" => some .Marches
  | _ => none

/-- Rust `str::split('_')` restricted to a single-character separator, on the
character list: always yields at least one (possibly empty) piece. -/
def splitUnderscoreAux : List Char → List Char → List String
  | [], acc => [String.mk acc.reverse]
  | c :: cs, acc =>
    if c = '_' then String.mk acc.reverse :: splitUnderscoreAux cs []
    else splitUnderscoreAux cs (c :: acc)

/-- `filename.split("_")` of `types.rs`. -/
def splitUnderscore (s : String) : List String :=
  splitUnderscoreAux s.data []

/-- `itertools` `join("_")` of the remaining iterator items. -/
def joinUnderscore : List String → String
  | [] => ""
  | [s] => s
  | s :: rest => s ++ "_" ++ joinUnderscore rest

/-- Matches a reversed suffix against a reversed string, returning the
reversed remainder. -/
def stripSuffixAux : List Char → List Char → Option (List Char)
  | rs, [] => some rs
  | [], _ :: _ => none
  | d :: ds, c :: cs => if d = c then stripSuffixAux ds cs else none

/-- Rust `str::strip_suffix`. -/
def stripSuffix (s suffix : String) : Option String :=
  (stripSuffixAux s.data.reverse suffix.data.reverse).map
    (fun rs => String.mk rs.reverse)

/-- The `MusicSheet` record of `types.rs`; `source` and `pdf` are
`Utf8PathBuf`s, modelled as the component list and the rendered path string
respectively. -/
structure MusicSheet where
  source : List String
  pdf : String
  instrument : Instrument
  tone : Option Tone
  clef : Clef
  voice : Option Voice
  title : String
  format : Format
  category : Category
  deriving DecidableEq

/-- The instrument-token step of `MusicSheet::try_from` (lines 213-226 of
`types.rs`): the first `_`-token is the candidate; after a literal `grosse`,
`caisse` or `saxophone` one more token is consumed and joined with `_`;
the result must parse as an `Instrument`. Returns the instrument and the
unconsumed tokens. -/
def decodeInstrument : List String → Except String (Instrument × List String)
  | [] => .error "Missing instrument name in filename"
  | i :: rest =>
    if i = "grosse" ∨ i = "caisse" ∨ i = "saxophone" then
      match rest with
      | [] => .error "Missing instrument name in filename"
      | i2 :: rest2 =>
        match Instrument.fromStr (i ++ "_" ++ i2) with
        | some instrument => .ok (instrument, rest2)
        | none => .error "Matching variant not found"
    else
      match Instrument.fromStr i with
      | some instrument => .ok (instrument, rest)
      | none => .error "Matching variant not found"

/-- The clef/voice/tone step of `MusicSheet::try_from` (lines 230-248 of
`types.rs`): percussion gets `ClefDrums` with no voice or tone and consumes
nothing; otherwise the next two tokens are voice and tone (missing-token
errors precede parse errors, in the Rust order), and the joined remainder
parses as a clef, defaulting to `ClefSol` on failure. -/
def decodeVTC (instrument : Instrument) (rest : List String) :
    Except String (Clef × Option Voice × Option Tone) :=
  match instrument with
  | .CaisseClaire | .GrosseCaisse => .ok (.ClefDrums, none, none)
  | _ =>
    match rest with
    | [] => .error "Missing voice name in filename"
    | v :: rest2 =>
      match rest2 with
      | [] => .error "Missing tone name in filename"
      | t :: rest3 =>
        match Voice.fromStr v with
        | none => .error "Matching variant not found"
        | some voice =>
          match Tone.fromStr t with
          | none => .error "Matching variant not found"
          | some tone =>
            .ok ((Clef.fromStr (joinUnderscore rest3)).getD .ClefSol,
                  some voice, some tone)

/-- The output-filename derivation of `MusicSheet::try_from` (lines 249-264 of
`types.rs`): `<title>_<instrument>`, then `_<voice>` and `_<tone>` when
present, then `_<clef>` exactly when the clef is `ClefFa`. -/
def derivePdfFilename (title : String) (instrument : Instrument)
    (voice : Option Voice) (tone : Option Tone) (clef : Clef) : String :=
  let f := title ++ "_" ++ instrument.toStr
  let f := match voice with
    | some v => f ++ "_" ++ v.toStr
    | none => f
  let f := match tone with
    | some t => f ++ "_" ++ t.toStr
    | none => f
  if clef = .ClefFa then f ++ "_" ++ clef.toStr else f

/-- `impl TryFrom<Utf8PathBuf> for MusicSheet` (lines 181-276 of `types.rs`).
The path is its component list; components are read from the back: filename
(which must strip a `.ly` suffix), then format, title and category directory
names. -/
def MusicSheet.tryFrom (source : List String) : Except String MusicSheet :=
  match source.reverse with
  | [] => .error "Empty or missing filename"
  | fname :: comps1 =>
    match stripSuffix fname ".ly" with
    | none => .error "Cannot strip suffix .ly"
    | some filename =>
      match comps1 with
      | [] => .error "Empty or missing format"
      | formatStr :: comps2 =>
        match comps2 with
        | [] => .error "Empty or missing format"
        | title :: comps3 =>
          match comps3 with
          | [] => .error "Empty or missing format"
          | categoryStr :: _ =>
            match Format.fromStr formatStr with
            | none => .error "Matching variant not found"
            | some format =>
              match Category.fromStr categoryStr with
              | none => .error "Matching variant not found"
              | some category =>
                match decodeInstrument (splitUnderscore filename) with
                | .error e => .error e
                | .ok (instrument, rest) =>
                  match decodeVTC instrument rest with
                  | .error e => .error e
                  | .ok (clef, voice, tone) =>
                    .ok { source := source
                          pdf := "pdf" ++ "/" ++ format.toStr ++ "/" ++
                            derivePdfFilename title instrument voice tone clef
                          instrument := instrument
                          tone := tone
                          clef := clef
                          voice := voice
                          title := title
                          format := format
                          category := category }

/-- The `LilypondArgs` filter configuration of `main.rs` (the CLI layer is
external; only the fields the core consumes are modelled). -/
structure LilypondArgs where
  limit : Option Nat
  title : Option String
  instrument : Option Instrument
  voice : Option Voice
  clef : Option Clef
  format : Option Format
  tone : Option Tone
  deriving DecidableEq

/-- `args.title.as_ref().is_none_or(|t| t == &m.title)` of `get_ly_files`. -/
def keepTitle (args : LilypondArgs) (m : MusicSheet) : Bool :=
  match args.title with
  | none => true
  | some t => t == m.title

/-- `args.instrument.as_ref().is_none_or(|i| i == &m.instrument)`. -/
def keepInstrument (args : LilypondArgs) (m : MusicSheet) : Bool :=
  match args.instrument with
  | none => true
  | some i => decide (i = m.instrument)

/-- `args.format.as_ref().is_none_or(|f| f == &m.format)`. -/
def keepFormat (args : LilypondArgs) (m : MusicSheet) : Bool :=
  match args.format with
  | none => true
  | some f => decide (f = m.format)

/-- `args.clef.as_ref().is_none_or(|c| c == &m.clef)`. -/
def keepClef (args : LilypondArgs) (m : MusicSheet) : Bool :=
  match args.clef with
  | none => true
  | some c => decide (c = m.clef)

/-- `args.voice.as_ref().is_none_or(|v| Some(v) == m.voice.as_ref())`. -/
def keepVoice (args : LilypondArgs) (m : MusicSheet) : Bool :=
  match args.voice with
  | none => true
  | some v => decide (some v = m.voice)

/-- `args.tone.as_ref().is_none_or(|t| Some(t) == m.tone.as_ref())`. -/
def keepTone (args : LilypondArgs) (m : MusicSheet) : Bool :=
  match args.tone with
  | none => true
  | some t => decide (some t = m.tone)

/-- The six sequential `.filter(...)` stages of `get_ly_files`
(lines 135-148 of `main.rs`), applied to the decoded records. -/
def filterSheets (args : LilypondArgs) (files : List MusicSheet) :
    List MusicSheet :=
  (((((files.filter (keepTitle args)).filter
    (keepInstrument args)).filter
    (keepFormat args)).filter
    (keepClef args)).filter
    (keepVoice args)).filter
    (keepTone args)

/-- The description string built by `compile_lilypond` (lines 98-110 of
`main.rs`): `<title> - <instrument>`, then a space and the tone when present,
then a space and the voice when present, then ` (Clef de Fa)` exactly when
the clef is ClefFa, then always ` [<format>]`. -/
def description (m : MusicSheet) : String :=
  let d := m.title ++ " - " ++ m.instrument.toStr
  let d := match m.tone with
    | some t => d ++ " " ++ t.toStr
    | none => d
  let d := match m.voice with
    | some v => d ++ " " ++ v.toStr
    | none => d
  let d := if m.clef = .ClefFa then d ++ " (Clef de Fa)" else d
  d ++ " [" ++ m.format.toStr ++ "]"

/-- Inversion for a successful decode: the clef/voice/tone triple of the
record came out of `decodeVTC` on its instrument, and the `pdf` field is the
derived output path of its other fields. -/
theorem tryFrom_ok_fields (source : List String) (m : MusicSheet)
    (h : MusicSheet.tryFrom source = .ok m) :
    (∃ rest, decodeVTC m.instrument rest = .ok (m.clef, m.voice, m.tone)) ∧
    m.pdf = "pdf" ++ "/" ++ m.format.toStr ++ "/" ++
      derivePdfFilename m.title m.instrument m.voice m.tone m.clef := by
  unfold MusicSheet.tryFrom at h
  repeat' split at h
  any_goals exact Except.noConfusion h
  injection h with h
  subst h
  exact ⟨⟨_, by assumption⟩, rfl⟩

/-- C1: for every path that decodes successfully to a percussion instrument
(CaisseClaire or GrosseCaisse), the resulting MusicSheet has `voice = none`,
`tone = none` and `clef = ClefDrums`. -/
theorem percussion_decode_fields (source : List String) (m : MusicSheet)
    (h : MusicSheet.tryFrom source = .ok m)
    (hp : m.instrument = .CaisseClaire ∨ m.instrument = .GrosseCaisse) :
    m.voice = none ∧ m.tone = none ∧ m.clef = .ClefDrums := by
  obtain ⟨⟨rest, hvtc⟩, -⟩ := tryFrom_ok_fields source m h
  rcases hp with hp | hp <;> rw [hp] at hvtc <;>
    simp only [decodeVTC, Except.ok.injEq, Prod.mk.injEq] at hvtc <;>
    exact ⟨hvtc.2.1.symm, hvtc.2.2.symm, hvtc.1.symm⟩

/-- Witness for C1 at the concrete path `marches/Valse/a4/grosse_caisse.ly`. -/
theorem percussion_decode_fields_witness :
    ({ source := ["marches", "Valse", "a4", "grosse_caisse.ly"],
       pdf := "pdf/a4/Valse_grosse_caisse", instrument := .GrosseCaisse,
       tone := none, clef := .ClefDrums, voice := none, title := "Valse",
       format := .A4, category := .Marches } : MusicSheet).voice = none ∧
    ({ source := ["marches", "Valse", "a4", "grosse_caisse.ly"],
       pdf := "pdf/a4/Valse_grosse_caisse", instrument := .GrosseCaisse,
       tone := none, clef := .ClefDrums, voice := none, title := "Valse",
       format := .A4, category := .Marches } : MusicSheet).tone = none ∧
    ({ source := ["marches", "Valse", "a4", "grosse_caisse.ly"],
       pdf := "pdf/a4/Valse_grosse_caisse", instrument := .GrosseCaisse,
       tone := none, clef := .ClefDrums, voice := none, title := "Valse",
       format := .A4, category := .Marches } : MusicSheet).clef = .ClefDrums :=
  percussion_decode_fields ["marches", "Valse", "a4", "grosse_caisse.ly"] _
    rfl (Or.inr rfl)

/-- C3 (amended): the pdf field of every successfully decoded record is
`pdf/<format>/<title>_<instrument>[_<voice>][_<tone>][_clef_fa]`, where the
clef suffix is the snake_case rendering `_clef_fa` (not the literal
`_ClefFa`), appended exactly when the clef is ClefFa, and no clef suffix
appears for ClefSol or ClefDrums. -/
theorem pdf_derivation_shape (source : List String) (m : MusicSheet)
    (h : MusicSheet.tryFrom source = .ok m) :
    m.pdf = "pdf" ++ "/" ++ m.format.toStr ++ "/" ++ m.title ++ "_" ++
      m.instrument.toStr ++
      (match m.voice with | some v => "_" ++ v.toStr | none => "") ++
      (match m.tone with | some t => "_" ++ t.toStr | none => "") ++
      (if m.clef = .ClefFa then "_clef_fa" else "") := by
  rw [(tryFrom_ok_fields source m h).2]
  unfold derivePdfFilename
  rcases m.voice with - | v <;> rcases m.tone with - | t <;>
    rcases hc : m.clef with - | - | - <;>
    simp [Clef.toStr, String.append_assoc, String.append_empty]

/-- Witness for C3 at the concrete path
`marches/Valse/a4/trombone_II_sib_clef_fa.ly`. -/
theorem pdf_derivation_shape_witness :
    ({ source := ["marches", "Valse", "a4", "trombone_II_sib_clef_fa.ly"],
       pdf := "pdf/a4/Valse_trombone_II_sib_clef_fa",
       instrument := .Trombone, tone := some .Sib, clef := .ClefFa,
       voice := some .II, title := "Valse", format := .A4,
       category := .Marches } : MusicSheet).pdf =
      "pdf" ++ "/" ++ Format.toStr .A4 ++ "/" ++ "Valse" ++ "_" ++
      Instrument.toStr .Trombone ++ ("_" ++ Voice.toStr .II) ++
      ("_" ++ Tone.toStr .Sib) ++ "_clef_fa" :=
  pdf_derivation_shape ["marches", "Valse", "a4", "trombone_II_sib_clef_fa.ly"]
    _ rfl

/-- Counterexample to C3 as stated: the record decoded from
`marches/Valse/a4/trombone_II_sib_clef_fa.ly` has clef ClefFa, but its pdf
path is `pdf/a4/Valse_trombone_II_sib_clef_fa`, which does not carry the
literal suffix `_ClefFa` the claim requires. -/
theorem pdf_clef_suffix_counterexample :
    MusicSheet.tryFrom ["marches", "Valse", "a4", "trombone_II_sib_clef_fa.ly"] =
      .ok { source := ["marches", "Valse", "a4", "trombone_II_sib_clef_fa.ly"],
            pdf := "pdf/a4/Valse_trombone_II_sib_clef_fa",
            instrument := .Trombone, tone := some .Sib, clef := .ClefFa,
            voice := some .II, title := "Valse", format := .A4,
            category := .Marches } ∧
    stripSuffix "pdf/a4/Valse_trombone_II_sib_clef_fa" "_ClefFa" = none ∧
    "pdf/a4/Valse_trombone_II_sib_clef_fa" ≠
      "pdf/a4/Valse_trombone_II_sib_ClefFa" :=
  ⟨rfl, rfl, by decide⟩

/-- C4 (amended): the derived output path of a decoded record is determined
by the tuple (title, instrument, voice, tone, clef, format) — the format must
be part of the tuple, because the pdf path places the file under
`pdf/<format>/`. -/
theorem pdf_determined_by_fields (s1 s2 : List String) (m1 m2 : MusicSheet)
    (h1 : MusicSheet.tryFrom s1 = .ok m1)
    (h2 : MusicSheet.tryFrom s2 = .ok m2)
    (ht : m1.title = m2.title) (hi : m1.instrument = m2.instrument)
    (hv : m1.voice = m2.voice) (hto : m1.tone = m2.tone)
    (hc : m1.clef = m2.clef) (hf : m1.format = m2.format) :
    m1.pdf = m2.pdf := by
  rw [(tryFrom_ok_fields s1 m1 h1).2, (tryFrom_ok_fields s2 m2 h2).2,
    ht, hi, hv, hto, hc, hf]

/-- Witness for C4: two distinct source paths whose records agree on
(title, instrument, voice, tone, clef, format) derive the same pdf path. -/
theorem pdf_determined_by_fields_witness :
    ({ source := ["marches", "Valse", "a4", "flute_I_ut.ly"],
       pdf := "pdf/a4/Valse_flute_I_ut", instrument := .Flute,
       tone := some .Ut, clef := .ClefSol, voice := some .I,
       title := "Valse", format := .A4,
       category := .Marches } : MusicSheet).pdf =
    ({ source := ["concerts", "Valse", "a4", "flute_I_ut_junk.ly"],
       pdf := "pdf/a4/Valse_flute_I_ut", instrument := .Flute,
       tone := some .Ut, clef := .ClefSol, voice := some .I,
       title := "Valse", format := .A4,
       category := .Concerts } : MusicSheet).pdf :=
  pdf_determined_by_fields ["marches", "Valse", "a4", "flute_I_ut.ly"]
    ["concerts", "Valse", "a4", "flute_I_ut_junk.ly"] _ _ rfl rfl
    rfl rfl rfl rfl rfl rfl

/-- Counterexample to C4 as stated: the records decoded from
`marches/Valse/a4/flute_I_ut.ly` and `marches/Valse/carnet/flute_I_ut.ly`
agree on (title, instrument, voice, tone, clef) yet derive different output
paths, because the pdf path also depends on the format directory. -/
theorem pdf_determined_counterexample :
    ∃ m1 m2 : MusicSheet,
      MusicSheet.tryFrom ["marches", "Valse", "a4", "flute_I_ut.ly"] = .ok m1 ∧
      MusicSheet.tryFrom ["marches", "Valse", "carnet", "flute_I_ut.ly"] = .ok m2 ∧
      m1.title = m2.title ∧ m1.instrument = m2.instrument ∧
      m1.voice = m2.voice ∧ m1.tone = m2.tone ∧ m1.clef = m2.clef ∧
      m1.pdf ≠ m2.pdf :=
  ⟨_, _, rfl, rfl, rfl, rfl, rfl, rfl, rfl, by decide⟩

/-- C2: a non-percussion path with valid suffix, format, category,
instrument, voice and tone decodes successfully even when the remaining
tokens (joined with `_`) do not parse as a Clef; the result has
`clef = ClefSol`, so a clef parse failure is never a decode error. -/
theorem clef_parse_failure_defaults (fname stem catS titleS fmtS : String)
    (f : Format) (c : Category) (instrument : Instrument) (v t : String)
    (rest : List String) (voice : Voice) (tone : Tone)
    (hsuf : stripSuffix fname ".ly" = some stem)
    (hfmt : Format.fromStr fmtS = some f)
    (hcat : Category.fromStr catS = some c)
    (hinstr : decodeInstrument (splitUnderscore stem) =
      .ok (instrument, v :: t :: rest))
    (hp1 : instrument ≠ .CaisseClaire) (hp2 : instrument ≠ .GrosseCaisse)
    (hv : Voice.fromStr v = some voice) (ht : Tone.fromStr t = some tone)
    (hclef : Clef.fromStr (joinUnderscore rest) = none) :
    ∃ m, MusicSheet.tryFrom [catS, titleS, fmtS, fname] = .ok m ∧
      m.clef = .ClefSol := by
  unfold MusicSheet.tryFrom
  simp only [List.reverse_cons, List.reverse_nil, List.nil_append,
    List.cons_append, hsuf, hfmt, hcat, hinstr]
  cases instrument <;> first
    | exact absurd rfl hp1
    | exact absurd rfl hp2
    | (simp only [decodeVTC, hv, ht, hclef, Option.getD]
       exact ⟨_, rfl, rfl⟩)

/-- Witness for C2 at `marches/Valse/a4/flute_I_ut.ly`: no tokens remain
after the tone, the empty join fails to parse as a Clef, and the decode
still succeeds with clef ClefSol. -/
theorem clef_parse_failure_defaults_witness :
    ∃ m, MusicSheet.tryFrom ["marches", "Valse", "a4", "flute_I_ut.ly"] =
      .ok m ∧ m.clef = .ClefSol :=
  clef_parse_failure_defaults "flute_I_ut.ly" "flute_I_ut" "marches" "Valse"
    "a4" .A4 .Marches .Flute "I" "ut" [] .I .Ut rfl rfl rfl rfl
    (by decide) (by decide) rfl rfl rfl

/-- C5 (amended): the example path must be
`marches/Valse/a4/saxophone_alto_I_ut.ly` — the category directory has to be
the serialized token `marches`, and then the decode yields exactly the
fields and pdf path the claim lists. -/
theorem example_path_decodes :
    MusicSheet.tryFrom ["marches", "Valse", "a4", "saxophone_alto_I_ut.ly"] =
      .ok { source := ["marches", "Valse", "a4", "saxophone_alto_I_ut.ly"],
            pdf := "pdf/a4/Valse_saxophone_alto_I_ut",
            instrument := .SaxophoneAlto, tone := some .Ut,
            clef := .ClefSol, voice := some .I, title := "Valse",
            format := .A4, category := .Marches } := rfl

/-- Counterexample to C5 as stated: the literal path
`march/Valse/a4/saxophone_alto_I_ut.ly` does not decode at all, because its
category component `march` is not in the Category enumeration. -/
theorem example_path_counterexample :
    (MusicSheet.tryFrom
      ["march", "Valse", "a4", "saxophone_alto_I_ut.ly"]).isOk = false ∧
    Category.fromStr "march" = none := ⟨rfl, rfl⟩

/-- C6 (amended): for every valid path whose filename stem is
`trombone_II_sib_clef_fa` (the voice token is case-sensitive, so it must be
`II`, not `ii`), decoding succeeds with clef ClefFa and the derived output
filename ends in `_clef_fa` (the snake_case rendering of ClefFa). -/
theorem clef_fa_stem_decodes (catS titleS fmtS : String) (f : Format)
    (c : Category) (hfmt : Format.fromStr fmtS = some f)
    (hcat : Category.fromStr catS = some c) :
    ∃ (m : MusicSheet) (s : String),
      MusicSheet.tryFrom
        [catS, titleS, fmtS, "trombone_II_sib_clef_fa.ly"] = .ok m ∧
      m.clef = .ClefFa ∧ m.pdf = s ++ "_clef_fa" := by
  unfold MusicSheet.tryFrom
  rw [show ([catS, titleS, fmtS, "trombone_II_sib_clef_fa.ly"] :
      List String).reverse =
    ["trombone_II_sib_clef_fa.ly", fmtS, titleS, catS] from by simp]
  dsimp only
  rw [show stripSuffix "trombone_II_sib_clef_fa.ly" ".ly" =
    some "trombone_II_sib_clef_fa" from rfl]
  simp only [hfmt, hcat]
  rw [show decodeInstrument (splitUnderscore "trombone_II_sib_clef_fa") =
    .ok (.Trombone, ["II", "sib", "clef", "fa"]) from rfl]
  dsimp only
  rw [show decodeVTC .Trombone ["II", "sib", "clef", "fa"] =
    .ok (.ClefFa, some .II, some .Sib) from rfl]
  dsimp only
  refine ⟨_, "pdf" ++ "/" ++ f.toStr ++ "/" ++ titleS ++ "_" ++ "trombone"
    ++ "_" ++ "II" ++ "_" ++ "sib", rfl, rfl, ?_⟩
  simp [derivePdfFilename, Instrument.toStr, Voice.toStr, Tone.toStr,
    Clef.toStr, String.append_assoc,
    show ("_" : String) ++ "clef_fa" = "_clef_fa" from rfl]

/-- Witness for C6 at the concrete path
`marches/Valse/a4/trombone_II_sib_clef_fa.ly`. -/
theorem clef_fa_stem_decodes_witness :
    ∃ (m : MusicSheet) (s : String),
      MusicSheet.tryFrom
        ["marches", "Valse", "a4", "trombone_II_sib_clef_fa.ly"] = .ok m ∧
      m.clef = .ClefFa ∧ m.pdf = s ++ "_clef_fa" :=
  clef_fa_stem_decodes "marches" "Valse" "a4" .A4 .Marches rfl rfl

/-- Counterexample to C6 as stated: the stem `trombone_ii_sib_clef_fa` does
not decode at all (`ii` is not a Voice token; parsing is case-sensitive),
and even the fixed stem `trombone_II_sib_clef_fa` derives an output filename
ending in `_clef_fa`, not the literal `_ClefFa` the claim requires. -/
theorem clef_fa_stem_counterexample :
    (MusicSheet.tryFrom
      ["marches", "Valse", "a4", "trombone_ii_sib_clef_fa.ly"]).isOk =
      false ∧
    Voice.fromStr "ii" = none ∧
    (∃ m, MusicSheet.tryFrom
        ["marches", "Valse", "a4", "trombone_II_sib_clef_fa.ly"] = .ok m ∧
      m.clef = .ClefFa ∧ stripSuffix m.pdf "_ClefFa" = none ∧
      stripSuffix m.pdf "_clef_fa" = some "pdf/a4/Valse_trombone_II_sib") :=
  ⟨rfl, rfl, ⟨_, rfl, rfl, rfl, rfl⟩⟩

/-- C7: when the first filename token is exactly `grosse`, `caisse` or
`saxophone`, one more token is consumed and the two are joined with `_` as
the instrument token; the decode fails when the second token is absent or
the joined token is not an Instrument, and any other first token is parsed
alone. -/
theorem instrument_token_rule (first i2 : String)
    (rest rest2 : List String) (instrument : Instrument) :
    ((first = "grosse" ∨ first = "caisse" ∨ first = "saxophone") →
      (decodeInstrument [first] =
        .error "Missing instrument name in filename") ∧
      (Instrument.fromStr (first ++ "_" ++ i2) = some instrument →
        decodeInstrument (first :: i2 :: rest2) = .ok (instrument, rest2)) ∧
      (Instrument.fromStr (first ++ "_" ++ i2) = none →
        ∃ e, decodeInstrument (first :: i2 :: rest2) = .error e)) ∧
    (¬(first = "grosse" ∨ first = "caisse" ∨ first = "saxophone") →
      (Instrument.fromStr first = some instrument →
        decodeInstrument (first :: rest) = .ok (instrument, rest)) ∧
      (Instrument.fromStr first = none →
        ∃ e, decodeInstrument (first :: rest) = .error e)) := by
  constructor
  · intro hpre
    refine ⟨?_, ?_, ?_⟩
    · simp only [decodeInstrument, if_pos hpre]
    · intro hjoin
      simp only [decodeInstrument, if_pos hpre, hjoin]
    · intro hjoin
      simp only [decodeInstrument, if_pos hpre, hjoin]
      exact ⟨_, rfl⟩
  · intro hpre
    constructor
    · intro hparse
      simp only [decodeInstrument, if_neg hpre, hparse]
    · intro hparse
      simp only [decodeInstrument, if_neg hpre, hparse]
      exact ⟨_, rfl⟩

/-- Witness for C7: `grosse caisse` joins to the instrument `grosse_caisse`
consuming both tokens, a lone `grosse` fails, and an ordinary first token
such as `flute` is parsed alone. -/
theorem instrument_token_rule_witness :
    decodeInstrument ["grosse", "caisse"] = .ok (.GrosseCaisse, []) ∧
    decodeInstrument ["grosse"] =
      .error "Missing instrument name in filename" ∧
    decodeInstrument ["flute", "I", "ut"] = .ok (.Flute, ["I", "ut"]) :=
  ⟨((instrument_token_rule "grosse" "caisse" [] [] .GrosseCaisse).1
      (Or.inl rfl)).2.1 rfl,
   ((instrument_token_rule "grosse" "caisse" [] [] .GrosseCaisse).1
      (Or.inl rfl)).1,
   ((instrument_token_rule "flute" "" ["I", "ut"] [] .Flute).2
      (by decide)).1 rfl⟩

/-- C8: the six filter stages are conjunctive — membership in the filtered
list equals the intersection of the six independently filtered lists — and
an unset filter field keeps every record. -/
theorem filter_conjunction (args : LilypondArgs) (l : List MusicSheet)
    (m : MusicSheet) :
    (m ∈ filterSheets args l ↔
      (m ∈ l.filter (keepTitle args) ∧ m ∈ l.filter (keepInstrument args) ∧
       m ∈ l.filter (keepFormat args) ∧ m ∈ l.filter (keepClef args) ∧
       m ∈ l.filter (keepVoice args) ∧ m ∈ l.filter (keepTone args))) ∧
    keepTitle { args with title := none } m = true ∧
    keepInstrument { args with instrument := none } m = true ∧
    keepFormat { args with format := none } m = true ∧
    keepClef { args with clef := none } m = true ∧
    keepVoice { args with voice := none } m = true ∧
    keepTone { args with tone := none } m = true := by
  refine ⟨?_, rfl, rfl, rfl, rfl, rfl, rfl⟩
  simp only [filterSheets, List.mem_filter]
  tauto

/-- C9: the description part of the status line printed for a dispatched
record is `<title> - <instrument>`, then a space and the tone when present,
then a space and the voice when present, then ` (Clef de Fa)` exactly when
the clef is ClefFa, then always ` [<format>]`. -/
theorem description_shape (m : MusicSheet) :
    description m = m.title ++ " - " ++ m.instrument.toStr ++
      (match m.tone with | some t => " " ++ t.toStr | none => "") ++
      (match m.voice with | some v => " " ++ v.toStr | none => "") ++
      (if m.clef = .ClefFa then " (Clef de Fa)" else "") ++
      " [" ++ m.format.toStr ++ "]" := by
  unfold description
  rcases m.tone with - | t <;> rcases m.voice with - | v <;>
    by_cases hc : m.clef = .ClefFa <;>
    simp [hc, String.append_assoc, String.append_empty]

/-- C10: a valid path whose filename stem starts with a percussion
instrument token (`caisse_claire` or `grosse_caisse`) decodes successfully
whatever extra `_`-tokens follow the instrument; the extras are ignored. -/
theorem percussion_extra_tokens (fname stem catS titleS fmtS : String)
    (f : Format) (c : Category) (extra : List String)
    (hsuf : stripSuffix fname ".ly" = some stem)
    (hfmt : Format.fromStr fmtS = some f)
    (hcat : Category.fromStr catS = some c) :
    (splitUnderscore stem = "grosse" :: "caisse" :: extra →
      ∃ m, MusicSheet.tryFrom [catS, titleS, fmtS, fname] = .ok m ∧
        m.instrument = .GrosseCaisse) ∧
    (splitUnderscore stem = "caisse" :: "claire" :: extra →
      ∃ m, MusicSheet.tryFrom [catS, titleS, fmtS, fname] = .ok m ∧
        m.instrument = .CaisseClaire) := by
  constructor <;> intro hsplit <;>
    · unfold MusicSheet.tryFrom
      simp only [List.reverse_cons, List.reverse_nil, List.nil_append,
        List.cons_append, hsuf, hfmt, hcat, hsplit, decodeInstrument,
        decodeVTC, Instrument.fromStr]
      exact ⟨_, rfl, rfl⟩

/-- Witness for C10 at `marches/Valse/a4/grosse_caisse_extra.ly` and
`marches/Valse/a4/caisse_claire_bis.ly`. -/
theorem percussion_extra_tokens_witness :
    (∃ m, MusicSheet.tryFrom
        ["marches", "Valse", "a4", "grosse_caisse_extra.ly"] = .ok m ∧
      m.instrument = .GrosseCaisse) ∧
    (∃ m, MusicSheet.tryFrom
        ["marches", "Valse", "a4", "caisse_claire_bis.ly"] = .ok m ∧
      m.instrument = .CaisseClaire) :=
  ⟨(percussion_extra_tokens "grosse_caisse_extra.ly" "grosse_caisse_extra"
      "marches" "Valse" "a4" .A4 .Marches ["extra"] rfl rfl rfl).1 rfl,
   (percussion_extra_tokens "caisse_claire_bis.ly" "caisse_claire_bis"
      "marches" "Valse" "a4" .A4 .Marches ["bis"] rfl rfl rfl).2 rfl⟩

end Partitions
